import Mathlib

/-!
Verification development for the Citadel IDP backend (blob lifecycle state machine).

The Python sources are shallowly embedded: pure helpers become Lean functions,
the orchestrator becomes explicit state passing over a world state (object store
contents plus the chronological trace of record-store saves), and Python
exceptions become an explicit error type threaded through the control flow.
Python mutates records in place, so each embedded step returns the partially
mutated record and state together with the exception, when one is raised.
-/

namespace Citadel

/-! ## Embedding of the Python string operations used by the sources -/

/-- Prefix test on character lists, the scanning primitive of str.replace. -/
def isPrefixOfC : List Char → List Char → Bool
  | [], _ => true
  | _ :: _, [] => false
  | a :: as, b :: bs => a == b && isPrefixOfC as bs

/-- Substring containment, the Python `in` operator on strings: some suffix of
the scanned list starts with the pattern. -/
def hasOccurrence (old : List Char) : List Char → Bool
  | [] => isPrefixOfC old []
  | c :: t => isPrefixOfC old (c :: t) || hasOccurrence old t

/-- Fuel-indexed worker for the embedding of Python str.replace: scans left to
right and replaces non-overlapping occurrences of the (nonempty) pattern. The
fuel is always instantiated with the length of the scanned list, which bounds
the recursion, keeping the definition structurally recursive and hence
kernel-reducible. -/
def pyReplaceAux (old new : List Char) : Nat → List Char → List Char
  | _, [] => []
  | 0, s => s
  | n + 1, c :: t =>
    if isPrefixOfC old (c :: t) && !old.isEmpty then
      new ++ pyReplaceAux old new n (t.drop (old.length - 1))
    else
      c :: pyReplaceAux old new n t

/-- Embedding of Python str.replace(old, new): every non-overlapping occurrence
of old, scanned left to right, is replaced by new. The sources only ever call
replace with the fixed nonempty stage tokens, so the empty-pattern corner of
Python (which interleaves the replacement) is irrelevant; here an empty pattern
leaves the string unchanged. -/
def pyReplace (s old new : List Char) : List Char :=
  pyReplaceAux old new s.length s

/-- str.replace lifted to String. -/
def pyReplaceS (s old new : String) : String :=
  ⟨pyReplace s.data old.data new.data⟩

/-! ## Embedding of the os.path helpers used by the sources

Only os.path.basename, os.path.dirname and the root component of
os.path.splitext are used, always on forward-slash blob paths. -/

/-- os.path.basename: the part after the last forward slash. -/
def basenameChars (s : List Char) : List Char :=
  (s.reverse.takeWhile (fun c => c != '/')).reverse

def basenameS (s : String) : String := ⟨basenameChars s.data⟩

/-- os.path.dirname: everything before the last forward slash, with trailing
slashes stripped unless the head consists only of slashes. -/
def dirnameChars (s : List Char) : List Char :=
  let base := s.reverse.takeWhile (fun c => c != '/')
  let head := s.take (s.length - base.length)
  if head.all (fun c => c == '/') then head
  else (head.reverse.dropWhile (fun c => c == '/')).reverse

def dirnameS (s : String) : String := ⟨dirnameChars s.data⟩

/-- Root component of os.path.splitext for a basename (the sources only apply
splitext to os.path.basename results): the extension starts at the last dot,
unless every character before that dot is itself a dot, in which case there is
no extension. -/
def splitextRootChars (b : List Char) : List Char :=
  let ext := b.reverse.takeWhile (fun c => c != '.')
  if ext.length = b.length then b
  else
    let root := b.take (b.length - ext.length - 1)
    if root.all (fun c => c == '.') then b
    else root

def splitextRootS (s : String) : String := ⟨splitextRootChars s.data⟩

/-- ASCII lowercase, the behaviour of Python str.lower on the ASCII document
type tokens involved. -/
def lowerS (s : String) : String := ⟨s.data.map Char.toLower⟩

/-! ## Python exceptions

All constructors except malformedPath model classes that derive from Exception
as raised by the embedded code, so the handler chain of
handle_input_blob_process catches each of them inside the guarded section;
an exception raised inside a handler propagates out of the loop. -/

inductive PyExc
  /-- MissingConfigException (subclass of CitadelIDPBackendException). -/
  | missingConfig
  /-- MissingDocumentTypeException (subclass of CitadelIDPBackendException). -/
  | missingDocType
  /-- CitadelIDPBackendException raised directly. -/
  | citadelBackend
  /-- AttributeError: attribute access (such as .replace) on Python None. -/
  | attributeError
  /-- TypeError: len(None). -/
  | typeError
  /-- Any other Exception: network or storage failures from the adapters. -/
  | generic
  /-- FolderMissingBusinessException, imported by the deprecated blob_handler
  module; the class is absent from common/custom_exceptions.py. -/
  | folderMissing
  /-- MalformedPathError, named by the spec for stage substitution on a path
  lacking the expected segment; no such exception exists in the code. -/
  | malformedPath
deriving DecidableEq

/-! ## Embedding of common/utils.py -/

/-- The left operand of the guard in string_is_not_empty: the source line is
return str is not None and len(input_str) > 0, which compares the builtin
class str - not the argument - with None, so it is always true. -/
def str_class_is_not_None : Bool := true

/-- Embedding of utils.string_is_not_empty. The argument may be Python None
(modelled as Option.none); since the None-guard tests the class str instead of
the argument, len(input_str) is always evaluated and len(None) raises a
TypeError. -/
def string_is_not_empty (input_str : Option String) : Except PyExc Bool :=
  if str_class_is_not_None then
    match input_str with
    | some s => Except.ok (decide (s.length > 0))
    | none => Except.error PyExc.typeError
  else
    Except.ok false

/-- Modelled from the spec: the configuration surface of section 6
(environment tag, feature toggles, connection string, analysis credentials and
the document-type table). common/config_reader.py is not among the source
files; none models a missing option or section of the INI data. -/
structure ConfigData where
  env : Option String := none
  use_azure_form_recognizer : Option Bool := none
  form_recognizer_key : Option String := none
  form_recognizer_endpoint : Option String := none
  azure_storage_account_connection_str : Option String := none
  form_recognizer_document_types : Option (List (String × String)) := none

/-- Embedding of utils.get_document_type_from_file_name: take the basename,
drop the extension, find the token after the last hyphen and resolve it
case-insensitively against the configured document-type table. Raises
MissingDocumentTypeException when there is no hyphen, when the table section is
absent, or when the token has no entry. -/
def get_document_type_from_file_name (cfg : ConfigData) (file_path : String) :
    Except PyExc (String × String) :=
  let full_file_name := basenameChars file_path.data
  let name_part := splitextRootChars full_file_name
  let tailPart := name_part.reverse.takeWhile (fun c => c != '-')
  if tailPart.length = name_part.length then
    Except.error PyExc.missingDocType
  else
    let document_type : String := ⟨tailPart.reverse⟩
    match cfg.form_recognizer_document_types with
    | some items =>
      match items.find? (fun kv => lowerS document_type == lowerS kv.1) with
      | some kv => Except.ok (document_type, kv.2)
      | none => Except.error PyExc.missingDocType
    | none => Except.error PyExc.missingDocType

/-- Characters stripped by connection-string normalisation: the single and the
double quote. -/
def isQuoteChar (c : Char) : Bool := c == Char.ofNat 39 || c == '"'

/-- Embedding of the quote normalisation in utils.get_blob_storage_connection_string:
if the string both starts and ends with a quote character, strip all leading
and trailing quote characters. -/
def stripQuotes (s : String) : String :=
  let d := s.data
  let startsQ := match d with
    | c :: _ => isQuoteChar c
    | [] => false
  let endsQ := match d.getLast? with
    | some c => isQuoteChar c
    | none => false
  if startsQ && endsQ then ⟨((d.dropWhile isQuoteChar).reverse.dropWhile isQuoteChar).reverse⟩
  else s

/-- Embedding of utils.get_blob_storage_connection_string: raises
MissingConfigException when the option is missing or empty, otherwise returns
the normalised connection string. -/
def get_blob_storage_connection_string (cfg : ConfigData) : Except PyExc String :=
  match cfg.azure_storage_account_connection_str with
  | none => Except.error PyExc.missingConfig
  | some cs =>
    match string_is_not_empty (some cs) with
    | Except.error e => Except.error e
    | Except.ok b =>
      if !b then Except.error PyExc.missingConfig
      else Except.ok (stripQuotes cs)

/-! ## The document record and the world state -/

/-- Modelled from the spec: stage folder tokens of the Folder/Path Model
(sections 4.1 and 6). common/constants.py is not among the source files; the
spec fixes the literal folder-name tokens, and input_blob_analysis_service.py
hardcodes the string /Inprogress/ consistently with them. -/
def VALIDATION_SUCCESSFUL_SUBFOLDER : String := "Validation-Successful"

/-- Modelled from the spec: the in-progress stage token (sections 4.1 and 6). -/
def INPROGRESS_SUBFOLDER : String := "Inprogress"

/-- Modelled from the spec: the successful terminal stage token (sections 4.1 and 6). -/
def SUCCESSFUL_SUBFOLDER : String := "Successful"

/-- Modelled from the spec: the failed terminal stage token (sections 4.1 and 6). -/
def FAILED_SUBFOLDER : String := "Failed"

/-- Modelled from the spec: the default input container, an opaque configured
string constant (section 6). -/
def DEFAULT_BLOB_CONTAINER : String := "citadel-idp-input"

/-- Modelled from the spec: the default result container, an opaque configured
string constant (section 6). -/
def DEFAULT_RESULT_JSON_CONTAINER : String := "citadel-idp-results"

/-- Lifecycle stage tags, as used by the orchestrator (PROCESSING, PROCESSED,
SUCCESS, FAILED). Modelled from the spec: models/input_blob_model.py is not
among the source files. -/
inductive LifecycleStatusTypes
  | PROCESSING
  | PROCESSED
  | SUCCESS
  | FAILED
deriving DecidableEq

/-- One lifecycle audit entry: stage tag plus human-readable message. The
wall-clock timestamp of the source is real time and is not modelled. -/
structure LifecycleStatus where
  status : LifecycleStatusTypes
  message : String
deriving DecidableEq

/-- Modelled from the spec: the Document Record of section 3
(models/input_blob_model.py is not among the source files). Field names follow
their uses in input_blob_handler.py; Option models a field that Python may
leave as None. json_output carries the ResultJsonMetaData pair
(container name, result blob path). -/
structure InputBlob where
  validation_successful_blob_path : String
  in_progress_blob_path : Option String := none
  failed_blob_path : Option String := none
  success_blob_path : Option String := none
  blob_type : Option String := none
  form_recognizer_model_id : Option String := none
  in_progress_blob_sas_url : Option String := none
  is_validation_successful : Bool := true
  is_processing_for_data : Bool := false
  is_processed_for_data : Bool := false
  is_processed_success : Bool := false
  is_processed_failed : Bool := false
  lifecycle_status_list : List LifecycleStatus := []
  json_output : Option (String × String) := none
deriving DecidableEq

/-- Object-store contents: the paths present in the input container and the
(path, payload) artifacts present in the result container. -/
structure BlobStore where
  blobs : List String := []
  results : List (String × String) := []
deriving DecidableEq

/-- The threaded world: object-store contents plus the chronological trace of
record-store saves (each input_blob.save() appends the record state persisted
at that moment). -/
structure WorldState where
  store : BlobStore := {}
  saved : List InputBlob := []
deriving DecidableEq

/-- input_blob.save(): persist the current record state to the record store. -/
def saveRecord (b : InputBlob) (st : WorldState) : WorldState :=
  { st with saved := st.saved ++ [b] }

/-- Effect on the store of a completed
move_blob_from_source_folder_to_destination_folder_in_azure_blob_storage:
copy to the destination, then delete the source. -/
def moveBlobInStore (src dst : String) (st : WorldState) : WorldState :=
  { st with store := { st.store with blobs := dst :: st.store.blobs.erase src } }

/-- Per-document behaviour of the external collaborators (object store and
document analysis service), modelled from the spec: the adapters are opaque
external collaborators, so whether each call succeeds is an input. -/
structure DocExt where
  move_to_inprogress_ok : Bool := true
  move_final_ok : Bool := true
  analysis_outcome : Except PyExc String := Except.ok "analysis-result"

/-- Embedding of input_blob_handler.get_sas_url: the signed URL built by the
f-string; account name and token are opaque, and the URL is nonempty by
construction. -/
def get_sas_url (blob_path : String) : String :=
  "https://account.blob.core.windows.net/" ++ DEFAULT_BLOB_CONTAINER ++ "/"
    ++ blob_path ++ "?" ++ "sas-token"

/-- Lifecycle append used at each transition. -/
def addLifecycle (b : InputBlob) (t : LifecycleStatusTypes) (msg : String) : InputBlob :=
  { b with lifecycle_status_list := b.lifecycle_status_list ++ [⟨t, msg⟩] }

/-! ## Embedding of services/input_blob_handler.py -/

/-- Embedding of input_blob_handler.set_blob_for_processing_and_update_mongodb
(the claim transition). Python mutates the record in place, so the partially
mutated record and state are returned together with the exception when one is
raised: the PROCESSING lifecycle entry is appended in memory before document
type resolution, but nothing is persisted or relocated when resolution raises. -/
def set_blob_for_processing_and_update_mongodb (cfg : ConfigData) (ext : DocExt)
    (b : InputBlob) (st : WorldState) : InputBlob × WorldState × Option PyExc :=
  let b := addLifecycle b LifecycleStatusTypes.PROCESSING "Starting blob process"
  match get_document_type_from_file_name cfg b.validation_successful_blob_path with
  | Except.error e => (b, st, some e)
  | Except.ok dm =>
    let b := { b with blob_type := some dm.1, form_recognizer_model_id := some dm.2 }
    let ip := pyReplaceS b.validation_successful_blob_path
      VALIDATION_SUCCESSFUL_SUBFOLDER INPROGRESS_SUBFOLDER
    let b := { b with in_progress_blob_path := some ip }
    let st := saveRecord b st
    if ext.move_to_inprogress_ok then
      let st := moveBlobInStore b.validation_successful_blob_path ip st
      let b := { b with is_processing_for_data := true }
      let b := { b with in_progress_blob_sas_url := some (get_sas_url ip) }
      let st := saveRecord b st
      (b, st, none)
    else
      (b, st, some PyExc.generic)

/-- The placeholder result payload of the disabled-analysis branch, verbatim
from input_blob_analysis_service.py. -/
def FORM_RECOGNIZER_DISABLED_RESULT : String :=
  "No result is generated because Form Recognizer is Disabled"

/-- The use_azure_form_recognizer decision inside
input_blob_analysis_service.analyze_blob: only the prod environment consults
the toggle (defaulting to false when absent); any other environment disables
the recognizer. -/
def analyze_use_azure_form_recognizer (cfg : ConfigData) : Bool :=
  let env := cfg.env.getD "local"
  if env == "prod" then cfg.use_azure_form_recognizer.getD false else false

/-- The result_dict computation of analyze_blob: config precondition checks,
the SAS URL check, and the document-analysis call when the recognizer is
enabled; the literal disabled-marker string otherwise. The brackets around the
adapter result model the single-element list built from result.to_dict(). -/
def analyze_result_dict (cfg : ConfigData) (ext : DocExt) (b : InputBlob) :
    Except PyExc String :=
  if analyze_use_azure_form_recognizer cfg then
    match cfg.form_recognizer_key with
    | none => Except.error PyExc.missingConfig
    | some key =>
      match string_is_not_empty (some key) with
      | Except.error e => Except.error e
      | Except.ok kb =>
        if !kb then Except.error PyExc.missingConfig
        else
          match cfg.form_recognizer_endpoint with
          | none => Except.error PyExc.missingConfig
          | some ep =>
            match string_is_not_empty (some ep) with
            | Except.error e => Except.error e
            | Except.ok eb =>
              if !eb then Except.error PyExc.missingConfig
              else
                match string_is_not_empty b.in_progress_blob_sas_url with
                | Except.error e => Except.error e
                | Except.ok sb =>
                  if sb then
                    match ext.analysis_outcome with
                    | Except.error e => Except.error e
                    | Except.ok r => Except.ok ("[" ++ r ++ "]")
                  else Except.error PyExc.citadelBackend
  else
    Except.ok FORM_RECOGNIZER_DISABLED_RESULT

/-- The result artifact path of analyze_blob: strip the literal /Inprogress/
segment from the in-progress path, then place a .json file with the same root
name next to it. -/
def result_json_path (ipp : String) : String :=
  let path := pyReplaceS ipp ("/" ++ INPROGRESS_SUBFOLDER ++ "/") "/"
  dirnameS path ++ "/" ++ splitextRootS (basenameS path) ++ ".json"

/-- The serialized final_result of analyze_blob, an opaque rendering of
json.dumps of the two-field object with input_file_name and
recognizer_result_data. -/
def result_payload (input_file_name result_dict : String) : String :=
  "json(" ++ input_file_name ++ ", " ++ result_dict ++ ")"

/-- Embedding of input_blob_analysis_service.analyze_blob. After the result
payload is computed, the upload with overwrite disabled raises on a
pre-existing artifact, and the surrounding bare except catches and logs any
upload failure without re-raising: on conflict the function returns normally
with the record and the result store unchanged. Accessing .replace on an unset
in-progress path raises an AttributeError. -/
def analyze_blob (cfg : ConfigData) (ext : DocExt) (b : InputBlob) (st : WorldState) :
    InputBlob × WorldState × Option PyExc :=
  match analyze_result_dict cfg ext b with
  | Except.error e => (b, st, some e)
  | Except.ok result_dict =>
    match b.in_progress_blob_path with
    | none => (b, st, some PyExc.attributeError)
    | some ipp =>
      let rjPath := result_json_path ipp
      let payload := result_payload (basenameS ipp) result_dict
      if (st.store.results.find? (fun pr => pr.1 == rjPath)).isSome then
        (b, st, none)
      else
        let st := { st with store :=
          { st.store with results := st.store.results ++ [(rjPath, payload)] } }
        let b := { b with json_output := some (DEFAULT_RESULT_JSON_CONTAINER, rjPath) }
        let st := saveRecord b st
        (b, st, none)

/-- Embedding of input_blob_handler.set_processing_status_and_move_completed_blobs
(the finalize relocation). On the error side the record gains the failed path,
the object moves to the Failed folder and the FAILED entry is appended; the
success side is symmetric. The record is persisted once before and once after
the relocation. Accessing .replace on an unset in-progress path raises an
AttributeError; a failing relocation raises out of the function. -/
def set_processing_status_and_move_completed_blobs (ext : DocExt) (is_error : Bool)
    (b : InputBlob) (st : WorldState) : InputBlob × WorldState × Option PyExc :=
  if is_error then
    match b.in_progress_blob_path with
    | none => (b, st, some PyExc.attributeError)
    | some ipp =>
      let fp := pyReplaceS ipp INPROGRESS_SUBFOLDER FAILED_SUBFOLDER
      let b := { b with failed_blob_path := some fp }
      let st := saveRecord b st
      if ext.move_final_ok then
        let st := moveBlobInStore ipp fp st
        let b := { b with is_processed_success := false, is_processed_failed := true }
        let b := addLifecycle b LifecycleStatusTypes.FAILED
          "Blob moved to Failed folder in Azure-Blob-Storage"
        let st := saveRecord b st
        (b, st, none)
      else
        (b, st, some PyExc.generic)
  else
    match b.in_progress_blob_path with
    | none => (b, st, some PyExc.attributeError)
    | some ipp =>
      let sp := pyReplaceS ipp INPROGRESS_SUBFOLDER SUCCESSFUL_SUBFOLDER
      let b := { b with success_blob_path := some sp }
      let st := saveRecord b st
      if ext.move_final_ok then
        let st := moveBlobInStore ipp sp st
        let b := { b with is_processed_success := true, is_processed_failed := false }
        let b := addLifecycle b LifecycleStatusTypes.SUCCESS
          "Blob moved to Successful folder in Azure-Blob-Storage"
        let st := saveRecord b st
        (b, st, none)
      else
        (b, st, some PyExc.generic)

/-- The shared body of the four except-handlers of handle_input_blob_process
(their bodies are identical): mark the record processed, append the PROCESSED
entry, persist, and attempt the finalize relocation with the current value of
the is_error variable. An exception raised here propagates out of the loop. -/
def exceptHandlerBody (ext : DocExt) (is_error : Bool) (b : InputBlob)
    (st : WorldState) : InputBlob × WorldState × Option PyExc :=
  let b := { b with is_processed_for_data := true }
  let b := addLifecycle b LifecycleStatusTypes.PROCESSED "Blob processed successfully"
  let st := saveRecord b st
  set_processing_status_and_move_completed_blobs ext is_error b st

/-- One iteration of the loop of handle_input_blob_process: the guarded
section (claim, optional analysis, persist PROCESSED, finalize relocation)
with every raised exception routed to the shared handler body. The returned
Bool is the value of the loop-carried is_error variable after the iteration
(set to false only after a completed analysis call), and the final component
is an exception escaping the handler itself, which aborts the batch. -/
def handle_one (cfg : ConfigData) (ext : DocExt) (use_azure_form_recognizer : Bool)
    (is_error : Bool) (b : InputBlob) (st : WorldState) :
    InputBlob × WorldState × Bool × Option PyExc :=
  match set_blob_for_processing_and_update_mongodb cfg ext b st with
  | (b1, st1, some _) =>
    let r := exceptHandlerBody ext is_error b1 st1
    (r.1, r.2.1, is_error, r.2.2)
  | (b1, st1, none) =>
    let step2 : InputBlob × WorldState × Bool × Option PyExc :=
      if use_azure_form_recognizer then
        match analyze_blob cfg ext b1 st1 with
        | (b2, st2, some e) => (b2, st2, is_error, some e)
        | (b2, st2, none) => (b2, st2, false, none)
      else
        (b1, st1, is_error, none)
    match step2 with
    | (b2, st2, isErr, some _) =>
      let r := exceptHandlerBody ext isErr b2 st2
      (r.1, r.2.1, isErr, r.2.2)
    | (b2, st2, isErr, none) =>
      let b3 := { b2 with is_processed_for_data := true }
      let b3 := addLifecycle b3 LifecycleStatusTypes.PROCESSED "Blob processed successfully"
      let st3 := saveRecord b3 st2
      match set_processing_status_and_move_completed_blobs ext isErr b3 st3 with
      | (b4, st4, some _) =>
        let r := exceptHandlerBody ext isErr b4 st4
        (r.1, r.2.1, isErr, r.2.2)
      | (b4, st4, none) => (b4, st4, isErr, none)

/-- The loop of handle_input_blob_process over the fetched records, threading
the loop-carried is_error variable. A handler-escaping exception propagates:
the batch stops there, returning the world state as mutated so far together
with the error; otherwise the mutated records are returned in order. -/
def processLoop (cfg : ConfigData) (ue : Bool) :
    Bool → List (InputBlob × DocExt) → WorldState → List InputBlob →
    WorldState × Except PyExc (List InputBlob)
  | _, [], st, acc => (st, Except.ok acc.reverse)
  | isErr, (b, ext) :: rest, st, acc =>
    match handle_one cfg ext ue isErr b st with
    | (b', st', isErr', none) => processLoop cfg ue isErr' rest st' (b' :: acc)
    | (_, st', _, some e) => (st', Except.error e)

/-- Embedding of input_blob_handler.handle_input_blob_process. The service
client construction validates the connection string first; the record query
filter is is_validation_successful and not is_processing_for_data; the
handler-level use-azure-form-recognizer toggle defaults to true when absent;
and the is_error variable is initialised to true once, before the loop. -/
def handle_input_blob_process (cfg : ConfigData)
    (allRecords : List (InputBlob × DocExt)) (st : WorldState) :
    WorldState × Except PyExc (List InputBlob) :=
  match get_blob_storage_connection_string cfg with
  | Except.error e => (st, Except.error e)
  | Except.ok _ =>
    let input_blob_list := allRecords.filter
      (fun r => r.1.is_validation_successful && !r.1.is_processing_for_data)
    let ue := cfg.use_azure_form_recognizer.getD true
    processLoop cfg ue true input_blob_list st []

/-! ## Embedding of the discovery checks of services/blob_handler.py -/

/-- Embedding of the discovery and emptiness checks of
blob_handler.get_input_blobs_list (lines 77 to 95 of the deprecated
object-store-driven batch variant): the argument models the container listing
under the company prefix; an empty listing, or a listing with no
Validation-Successful entries, raises FolderMissingBusinessException - a class
that module imports but which is absent from common/custom_exceptions.py. The
per-blob collection (collect_input_blob) calls helpers that are not among the
source files and is outside the scope of this embedding. -/
def get_input_blobs_list_discovery (company_blobs_path_list : List String) :
    Except PyExc (List String) :=
  if company_blobs_path_list.length = 0 then
    Except.error PyExc.folderMissing
  else
    let validation_successful_blobs_path_list := company_blobs_path_list.filter
      (fun item => hasOccurrence VALIDATION_SUCCESSFUL_SUBFOLDER.data item.data)
    if validation_successful_blobs_path_list.length = 0 then
      Except.error PyExc.folderMissing
    else
      Except.ok validation_successful_blobs_path_list

/-- Modelled from the spec: the pathForStage contract of section 4.1, a pure
substitution of the stage segment that signals MalformedPathError when the
path lacks the fromStage segment. The code has no such function or exception -
it performs inline str.replace - so this definition exists only to compare the
contract of the spec with the behaviour of the code. -/
def pathForStage_specContract (p fromStage toStage : String) : Except PyExc String :=
  if hasOccurrence fromStage.data p.data then
    Except.ok (pyReplaceS p fromStage toStage)
  else
    Except.error PyExc.malformedPath

/-- Discriminator for Except used in hypotheses of batch-level theorems. -/
def exceptIsOk {α : Type} : Except PyExc α → Bool
  | Except.ok _ => true
  | Except.error _ => false

/-! ## Concrete scenario inputs used by witnesses and counterexamples -/

/-- A production configuration with the recognizer enabled and a one-entry
document-type table. -/
def cfgProd : ConfigData :=
  { env := some "prod"
    use_azure_form_recognizer := some true
    form_recognizer_key := some "fr-key"
    form_recognizer_endpoint := some "fr-endpoint"
    azure_storage_account_connection_str := some "conn-str"
    form_recognizer_document_types := some [("receipt", "model-A")] }

/-- The same configuration with the use-azure-form-recognizer toggle
explicitly set to false. -/
def cfgToggleOff : ConfigData := { cfgProd with use_azure_form_recognizer := some false }

/-- The same configuration with the use-azure-form-recognizer toggle absent. -/
def cfgNoToggle : ConfigData := { cfgProd with use_azure_form_recognizer := none }

/-- A fresh claimable record whose document analysis will succeed. -/
def docOkRec : InputBlob :=
  { validation_successful_blob_path := "test-company/Validation-Successful/1001-receipt.jpg" }

/-- A fresh claimable record used for the document whose analysis raises. -/
def docNetRec : InputBlob :=
  { validation_successful_blob_path := "test-company/Validation-Successful/1002-receipt.jpg" }

/-- A fresh claimable record whose filename has no hyphen, so document-type
resolution raises. -/
def noHyphenRec : InputBlob :=
  { validation_successful_blob_path := "test-company/Validation-Successful/1001.jpg" }

/-- A fresh claimable record whose path lacks the Validation-Successful stage
segment. -/
def oopsRec : InputBlob :=
  { validation_successful_blob_path := "test-company/Oops/1001-receipt.jpg" }

/-- A record already sitting in the in-progress stage, used to exercise the
finalize relocation directly. -/
def inProgressRec : InputBlob :=
  { validation_successful_blob_path := "test-company/Validation-Successful/1001-receipt.jpg"
    in_progress_blob_path := some "test-company/Inprogress/1001-receipt.jpg" }

/-- A record already claimed for processing, which the batch query filter
excludes. -/
def claimedRec : InputBlob :=
  { validation_successful_blob_path := "test-company/Validation-Successful/1003-receipt.jpg"
    is_processing_for_data := true }

/-- External behaviour: everything succeeds. -/
def extOk : DocExt := {}

/-- External behaviour: the document-analysis call raises a network error. -/
def extNetFail : DocExt := { analysis_outcome := Except.error PyExc.generic }

/-- External behaviour: the document-analysis call raises and the finalize
relocation also fails. -/
def extNetFailRelocFail : DocExt :=
  { analysis_outcome := Except.error PyExc.generic, move_final_ok := false }

/-- A world whose result container already holds an artifact at the result
path of docOkRec, to exercise the upload conflict. -/
def conflictState : WorldState :=
  { store := { results := [("test-company/1001-receipt.json", "old-payload")] } }

/-! ## Lemmas about the replace embedding -/

theorem pyReplaceAux_congr (old new : List Char) :
    ∀ n₁ : Nat, ∀ s : List Char, ∀ n₂ : Nat,
      s.length ≤ n₁ → s.length ≤ n₂ →
      pyReplaceAux old new n₁ s = pyReplaceAux old new n₂ s := by
  intro n₁
  induction n₁ with
  | zero =>
    intro s n₂ h1 _
    have hs : s = [] := List.eq_nil_of_length_eq_zero (Nat.le_zero.mp h1)
    subst hs
    cases n₂ <;> rfl
  | succ m ih =>
    intro s n₂ h1 h2
    cases s with
    | nil => cases n₂ <;> rfl
    | cons c t =>
      cases n₂ with
      | zero =>
        simp at h2
      | succ m₂ =>
        simp only [List.length_cons, Nat.succ_le_succ_iff] at h1 h2
        simp only [pyReplaceAux]
        by_cases hp : (isPrefixOfC old (c :: t) && !old.isEmpty) = true
        · rw [if_pos hp, if_pos hp]
          have hd : (t.drop (old.length - 1)).length ≤ m := by
            have := List.length_drop (old.length - 1) t
            omega
          have hd₂ : (t.drop (old.length - 1)).length ≤ m₂ := by
            have := List.length_drop (old.length - 1) t
            omega
          rw [ih (t.drop (old.length - 1)) m₂ hd hd₂]
        · rw [if_neg hp, if_neg hp]
          rw [ih t m₂ h1 h2]

theorem pyReplace_nil (old new : List Char) : pyReplace [] old new = [] := rfl

theorem pyReplace_cons (old new : List Char) (c : Char) (t : List Char) :
    pyReplace (c :: t) old new =
      if isPrefixOfC old (c :: t) && !old.isEmpty then
        new ++ pyReplace (t.drop (old.length - 1)) old new
      else c :: pyReplace t old new := by
  show pyReplaceAux old new (c :: t).length (c :: t) = _
  simp only [List.length_cons, pyReplaceAux, pyReplace]
  by_cases hp : (isPrefixOfC old (c :: t) && !old.isEmpty) = true
  · rw [if_pos hp, if_pos hp]
    have hd : (t.drop (old.length - 1)).length ≤ t.length := by
      have := List.length_drop (old.length - 1) t
      omega
    rw [pyReplaceAux_congr old new t.length (t.drop (old.length - 1))
      (t.drop (old.length - 1)).length hd (Nat.le_refl _)]
  · rw [if_neg hp, if_neg hp]

/-- A string that does not contain the pattern is left unchanged by replace. -/
theorem pyReplace_of_not_occ (old new : List Char) :
    ∀ s, hasOccurrence old s = false → pyReplace s old new = s := by
  intro s
  induction s with
  | nil => intro _; rfl
  | cons c t ih =>
    intro h
    simp only [hasOccurrence, Bool.or_eq_false_iff] at h
    rw [pyReplace_cons, h.1]
    simp only [Bool.false_and, if_neg (by simp : ¬ (false = true))]
    rw [ih h.2]

theorem isPrefixOfC_append_left :
    ∀ (old s t : List Char), old.length ≤ s.length →
      isPrefixOfC old (s ++ t) = isPrefixOfC old s := by
  intro old
  induction old with
  | nil => intro s t _; rfl
  | cons o os ih =>
    intro s t h
    cases s with
    | nil => simp at h
    | cons c cs =>
      simp only [List.cons_append, isPrefixOfC, List.append_eq]
      rw [ih cs t (by simpa using h)]

theorem isPrefixOfC_self_append : ∀ old t : List Char, isPrefixOfC old (old ++ t) = true := by
  intro old
  induction old with
  | nil => intro t; rfl
  | cons o os ih =>
    intro t
    simp only [List.cons_append, isPrefixOfC, List.append_eq]
    rw [ih]
    simp

theorem hasOccurrence_of_prefix (old s : List Char) (h : isPrefixOfC old s = true) :
    hasOccurrence old s = true := by
  cases s with
  | nil => simpa [hasOccurrence] using h
  | cons c t => simp [hasOccurrence, h]

/-- Replace on a string holding exactly one occurrence of the pattern at a known
position: the prefix before the occurrence is copied, the occurrence is
replaced, and scanning continues in the tail. The hypothesis states that no
occurrence of the pattern starts inside the prefix (also not one overlapping
into the occurrence itself). -/
theorem pyReplace_append (old new y : List Char) (hne : old ≠ []) :
    ∀ x : List Char, hasOccurrence old (x ++ old.dropLast) = false →
      pyReplace (x ++ old ++ y) old new = x ++ (new ++ pyReplace y old new) := by
  intro x
  induction x with
  | nil =>
    intro _
    obtain ⟨o, os, rfl⟩ := List.exists_cons_of_ne_nil hne
    simp only [List.nil_append, List.cons_append]
    rw [pyReplace_cons]
    have hpre : isPrefixOfC (o :: os) (o :: (os ++ y)) = true := by
      have := isPrefixOfC_self_append (o :: os) y
      simpa using this
    rw [hpre]
    have hlen : (o :: os).length - 1 = os.length := by simp
    simp only [List.isEmpty_cons, Bool.not_false, Bool.and_true, eq_self_iff_true, if_true]
    rw [hlen, List.drop_left os y]
  | cons c x' ih =>
    intro hocc
    have hocc' : hasOccurrence old ((c :: x') ++ old.dropLast) = false := hocc
    simp only [List.cons_append, hasOccurrence, Bool.or_eq_false_iff] at hocc'
    have hnp : isPrefixOfC old (c :: (x' ++ old ++ y)) = false := by
      by_cases hp : isPrefixOfC old (c :: (x' ++ old ++ y)) = true
      · exfalso
        have hdecomp : c :: (x' ++ old ++ y)
            = ((c :: x') ++ old.dropLast) ++ (old.getLast hne :: y) := by
          have h1 : old.dropLast ++ [old.getLast hne] = old :=
            List.dropLast_append_getLast hne
          calc c :: (x' ++ old ++ y)
              = c :: (x' ++ (old.dropLast ++ [old.getLast hne]) ++ y) := by rw [h1]
            _ = ((c :: x') ++ old.dropLast) ++ (old.getLast hne :: y) := by
                simp [List.append_assoc]
        have hlen : old.length ≤ ((c :: x') ++ old.dropLast).length := by
          have h0 : 0 < old.length := List.length_pos.mpr hne
          simp only [List.length_append, List.length_cons, List.length_dropLast]
          omega
        rw [hdecomp, isPrefixOfC_append_left old _ _ hlen] at hp
        have := hasOccurrence_of_prefix old ((c :: x') ++ old.dropLast) hp
        rw [this] at hocc
        simp at hocc
      · exact Bool.eq_false_iff.mpr hp
    have hstep : (c :: x') ++ old ++ y = c :: (x' ++ old ++ y) := by
      simp [List.append_assoc]
    rw [hstep, pyReplace_cons, hnp]
    simp only [Bool.false_and, if_neg (by simp : ¬ (false = true))]
    rw [ih (by simpa [List.append_assoc] using hocc'.2)]
    simp [List.append_assoc]

/-- Single-substitution form: if the pattern occurs exactly once (as delimited
by the hypotheses) and not at all in the tail, replace swaps just that
occurrence. -/
theorem pyReplace_single (A B y x : List Char) (hne : A ≠ [])
    (h1 : hasOccurrence A (x ++ A.dropLast) = false)
    (h2 : hasOccurrence A y = false) :
    pyReplace (x ++ A ++ y) A B = x ++ B ++ y := by
  rw [pyReplace_append A B y hne x h1, pyReplace_of_not_occ A B y h2]
  simp [List.append_assoc]

/-! ## Supporting lemmas about the orchestrator -/

/-- The finalize relocation raises nothing when the in-progress path is set
and the relocation succeeds. -/
theorem set_processing_no_raise (ext : DocExt) (isErr : Bool) (b : InputBlob)
    (st : WorldState) (ipp : String) (hip : b.in_progress_blob_path = some ipp)
    (hm : ext.move_final_ok = true) :
    (set_processing_status_and_move_completed_blobs ext isErr b st).2.2 = none := by
  unfold set_processing_status_and_move_completed_blobs
  cases isErr <;> simp [hip, hm]

/-- The except-handler body raises nothing when the in-progress path is set
and the relocation succeeds. -/
theorem exceptHandlerBody_no_raise (ext : DocExt) (isErr : Bool) (b : InputBlob)
    (st : WorldState) (ipp : String) (hip : b.in_progress_blob_path = some ipp)
    (hm : ext.move_final_ok = true) :
    (exceptHandlerBody ext isErr b st).2.2 = none := by
  unfold exceptHandlerBody
  exact set_processing_no_raise ext isErr _ _ ipp (by simp [addLifecycle, hip]) hm

/-- analyze_blob never changes the in-progress path of the record. -/
theorem analyze_blob_preserves_ip (cfg : ConfigData) (ext : DocExt) (b : InputBlob)
    (st : WorldState) :
    ((analyze_blob cfg ext b st).1).in_progress_blob_path = b.in_progress_blob_path := by
  unfold analyze_blob
  rcases hE : analyze_result_dict cfg ext b with e | rd
  · rfl
  · rcases hip : b.in_progress_blob_path with _ | ipp
    · simp [hip]
    · simp only []
      split
      · simp [hip]
      · simp [hip]

/-- The claim transition raises nothing and sets the in-progress path when
document-type resolution succeeds and the relocation succeeds. -/
theorem set_blob_claim_ok (cfg : ConfigData) (ext : DocExt) (b : InputBlob)
    (st : WorldState) (dm : String × String)
    (hres : get_document_type_from_file_name cfg b.validation_successful_blob_path
      = Except.ok dm)
    (hm : ext.move_to_inprogress_ok = true) :
    (set_blob_for_processing_and_update_mongodb cfg ext b st).2.2 = none ∧
    ((set_blob_for_processing_and_update_mongodb cfg ext b st).1).in_progress_blob_path
      = some (pyReplaceS b.validation_successful_blob_path VALIDATION_SUCCESSFUL_SUBFOLDER
        INPROGRESS_SUBFOLDER) := by
  unfold set_blob_for_processing_and_update_mongodb
  simp [addLifecycle, hres, hm]

/-- A document whose type resolves and whose relocations succeed never lets
an exception escape its loop iteration, whatever the analysis outcome. -/
theorem handle_one_no_raise (cfg : ConfigData) (ext : DocExt) (ue isErr : Bool)
    (b : InputBlob) (st : WorldState) (dm : String × String)
    (hres : get_document_type_from_file_name cfg b.validation_successful_blob_path
      = Except.ok dm)
    (hm1 : ext.move_to_inprogress_ok = true) (hm2 : ext.move_final_ok = true) :
    (handle_one cfg ext ue isErr b st).2.2.2 = none := by
  obtain ⟨he, hip⟩ := set_blob_claim_ok cfg ext b st dm hres hm1
  rcases hS : set_blob_for_processing_and_update_mongodb cfg ext b st with ⟨b1, st1, e1⟩
  rw [hS] at he hip
  simp only at he hip
  subst he
  unfold handle_one
  rw [hS]
  by_cases hue : ue = true
  · rcases hA : analyze_blob cfg ext b1 st1 with ⟨b2, st2, e2⟩
    have hip2 : b2.in_progress_blob_path
        = some (pyReplaceS b.validation_successful_blob_path VALIDATION_SUCCESSFUL_SUBFOLDER
          INPROGRESS_SUBFOLDER) := by
      have hpres := analyze_blob_preserves_ip cfg ext b1 st1
      rw [hA] at hpres
      simp only at hpres
      rw [hpres, hip]
    rcases e2 with _ | e
    · simp only [hue, if_true, hA]
      have hip3 : (addLifecycle { b2 with is_processed_for_data := true }
          LifecycleStatusTypes.PROCESSED "Blob processed successfully").in_progress_blob_path
          = some (pyReplaceS b.validation_successful_blob_path VALIDATION_SUCCESSFUL_SUBFOLDER
            INPROGRESS_SUBFOLDER) := by
        simp [addLifecycle, hip2]
      have hsp := set_processing_no_raise ext false
        (addLifecycle { b2 with is_processed_for_data := true }
          LifecycleStatusTypes.PROCESSED "Blob processed successfully")
        (saveRecord (addLifecycle { b2 with is_processed_for_data := true }
          LifecycleStatusTypes.PROCESSED "Blob processed successfully") st2)
        _ hip3 hm2
      rcases hS2 : set_processing_status_and_move_completed_blobs ext false
        (addLifecycle { b2 with is_processed_for_data := true }
          LifecycleStatusTypes.PROCESSED "Blob processed successfully")
        (saveRecord (addLifecycle { b2 with is_processed_for_data := true }
          LifecycleStatusTypes.PROCESSED "Blob processed successfully") st2)
        with ⟨b4, st4, e4⟩
      rw [hS2] at hsp
      simp only at hsp
      subst hsp
      simp [hS2]
    · simp only [hue, if_true, hA]
      exact exceptHandlerBody_no_raise ext isErr b2 st2 _ hip2 hm2
  · have hue' : ue = false := by
      cases ue
      · rfl
      · exact absurd rfl hue
    subst hue'
    simp only [Bool.false_eq_true, if_false]
    have hip3 : (addLifecycle { b1 with is_processed_for_data := true }
        LifecycleStatusTypes.PROCESSED "Blob processed successfully").in_progress_blob_path
        = some (pyReplaceS b.validation_successful_blob_path VALIDATION_SUCCESSFUL_SUBFOLDER
          INPROGRESS_SUBFOLDER) := by
      simp [addLifecycle, hip]
    have hsp := set_processing_no_raise ext isErr
      (addLifecycle { b1 with is_processed_for_data := true }
        LifecycleStatusTypes.PROCESSED "Blob processed successfully")
      (saveRecord (addLifecycle { b1 with is_processed_for_data := true }
        LifecycleStatusTypes.PROCESSED "Blob processed successfully") st1)
      _ hip3 hm2
    rcases hS2 : set_processing_status_and_move_completed_blobs ext isErr
      (addLifecycle { b1 with is_processed_for_data := true }
        LifecycleStatusTypes.PROCESSED "Blob processed successfully")
      (saveRecord (addLifecycle { b1 with is_processed_for_data := true }
        LifecycleStatusTypes.PROCESSED "Blob processed successfully") st1)
      with ⟨b4, st4, e4⟩
    rw [hS2] at hsp
    simp only at hsp
    subst hsp
    simp [hS2]

/-- The batch loop completes and yields one summary per document when every
document is well-formed (resolvable type, successful relocations). -/
theorem processLoop_no_raise (cfg : ConfigData) (ue : Bool) :
    ∀ (ds : List (InputBlob × DocExt)) (isErr : Bool) (st : WorldState)
      (acc : List InputBlob),
      (∀ d ∈ ds, ∃ dm,
        get_document_type_from_file_name cfg d.1.validation_successful_blob_path
          = Except.ok dm
        ∧ d.2.move_to_inprogress_ok = true ∧ d.2.move_final_ok = true) →
      ∃ l, (processLoop cfg ue isErr ds st acc).2 = Except.ok l
        ∧ l.length = acc.length + ds.length := by
  intro ds
  induction ds with
  | nil =>
    intro isErr st acc _
    exact ⟨acc.reverse, rfl, by simp⟩
  | cons d rest ih =>
    intro isErr st acc hw
    rcases d with ⟨b, ext⟩
    obtain ⟨dm, hres, hm1, hm2⟩ := hw (b, ext) (List.mem_cons_self _ _)
    have hnone := handle_one_no_raise cfg ext ue isErr b st dm hres hm1 hm2
    rcases hH : handle_one cfg ext ue isErr b st with ⟨b', st', isErr', e⟩
    rw [hH] at hnone
    simp only at hnone
    subst hnone
    simp only [processLoop, hH]
    obtain ⟨l, hl, hlen⟩ := ih isErr' st' (b' :: acc)
      (fun d hd => hw d (List.mem_cons_of_mem _ hd))
    refine ⟨l, hl, ?_⟩
    simp only [List.length_cons] at hlen ⊢
    omega

/-! ## Claim theorems -/

/-- C10: string_is_not_empty returns, for every actual string, exactly the
test that its length is positive; the None-guard of the source compares the
builtin class str with None, so it is constantly true, and a None argument
reaches len(None) and raises a TypeError instead of returning a boolean. -/
theorem C10_string_is_not_empty_behaviour :
    (∀ s : String, string_is_not_empty (some s) = Except.ok (decide (s.length > 0)))
    ∧ str_class_is_not_None = true
    ∧ string_is_not_empty none = Except.error PyExc.typeError :=
  ⟨fun _ => rfl, rfl, rfl⟩

/-- C6 (amended): the stage substitution of the code is a pure, total string
replacement touching no storage; when the path lacks the fromStage segment it
returns the path unchanged - no MalformedPathError exists in the code and no
error is raised - and when the segment is present it replaces its occurrences
with the toStage segment. This theorem is the absent-segment half: the
substitution is the identity on a path without the segment. -/
theorem C6_substitution_identity_when_segment_absent (p old new : String)
    (h : hasOccurrence old.data p.data = false) :
    pyReplaceS p old new = p := by
  unfold pyReplaceS
  rw [pyReplace_of_not_occ old.data new.data p.data h]

/-- C6 witness: the concrete path lacking the Validation-Successful segment is
returned unchanged. -/
theorem C6_substitution_identity_witness :
    pyReplaceS ("test-company/Oops/1001-receipt.jpg") VALIDATION_SUCCESSFUL_SUBFOLDER
      INPROGRESS_SUBFOLDER = "test-company/Oops/1001-receipt.jpg" :=
  C6_substitution_identity_when_segment_absent ("test-company/Oops/1001-receipt.jpg")
    VALIDATION_SUCCESSFUL_SUBFOLDER INPROGRESS_SUBFOLDER (by decide)

/-- C6 counterexample: on a path lacking the fromStage segment the contract of
the spec signals MalformedPathError, while the substitution of the code
returns the path unchanged, and the claim transition silently stores that
unchanged path as the in-progress path instead of propagating an error. -/
theorem C6_counterexample_missing_segment_not_signalled :
    pathForStage_specContract ("test-company/Oops/1001-receipt.jpg")
        VALIDATION_SUCCESSFUL_SUBFOLDER INPROGRESS_SUBFOLDER
      = Except.error PyExc.malformedPath
    ∧ pyReplaceS ("test-company/Oops/1001-receipt.jpg") VALIDATION_SUCCESSFUL_SUBFOLDER
        INPROGRESS_SUBFOLDER = "test-company/Oops/1001-receipt.jpg"
    ∧ (set_blob_for_processing_and_update_mongodb cfgProd extOk oopsRec {}).2.2 = none
    ∧ ((set_blob_for_processing_and_update_mongodb cfgProd extOk oopsRec {}).1).in_progress_blob_path
      = some ("test-company/Oops/1001-receipt.jpg") := by
  refine ⟨?_, ?_, ?_, ?_⟩ <;> rfl

/-- C7 (amended): the substitution round-trip
pathForStage(pathForStage(p, A, B), B, A) = p holds for every path whose only
occurrence of the A token is the stage segment itself and which contains no
occurrence of the B token; it fails for otherwise valid paths whose filename
contains a stage token, because str.replace substitutes every occurrence. -/
theorem C7_roundtrip_on_clean_paths (A B x y : List Char) (hA : A ≠ []) (hB : B ≠ [])
    (h1 : hasOccurrence A (x ++ A.dropLast) = false) (h2 : hasOccurrence A y = false)
    (h3 : hasOccurrence B (x ++ B.dropLast) = false) (h4 : hasOccurrence B y = false) :
    pyReplace (pyReplace (x ++ A ++ y) A B) B A = x ++ A ++ y := by
  rw [pyReplace_single A B y x hA h1 h2, pyReplace_single B A y x hB h3 h4]

/-- C7 witness: the round-trip on a concrete clean path through the
Validation-Successful and Inprogress stage tokens. -/
theorem C7_roundtrip_witness :
    pyReplace (pyReplace (("test-company/").data ++ VALIDATION_SUCCESSFUL_SUBFOLDER.data
        ++ ("/1001-receipt.jpg").data) VALIDATION_SUCCESSFUL_SUBFOLDER.data
        INPROGRESS_SUBFOLDER.data) INPROGRESS_SUBFOLDER.data
        VALIDATION_SUCCESSFUL_SUBFOLDER.data
      = ("test-company/").data ++ VALIDATION_SUCCESSFUL_SUBFOLDER.data
        ++ ("/1001-receipt.jpg").data :=
  C7_roundtrip_on_clean_paths VALIDATION_SUCCESSFUL_SUBFOLDER.data INPROGRESS_SUBFOLDER.data
    (("test-company/").data) (("/1001-receipt.jpg").data)
    (by decide) (by decide) (by decide) (by decide) (by decide) (by decide)

/-- C7 counterexample: a valid in-progress path whose filename contains the
Successful stage token does not round-trip, because the second substitution
also rewrites the filename occurrence. -/
theorem C7_counterexample_stage_token_in_filename :
    pyReplaceS (pyReplaceS ("test-company/Inprogress/Successful-doc.jpg")
        INPROGRESS_SUBFOLDER SUCCESSFUL_SUBFOLDER) SUCCESSFUL_SUBFOLDER INPROGRESS_SUBFOLDER
      ≠ "test-company/Inprogress/Successful-doc.jpg" := by
  decide

/-- C4 (amended): every completed finalize relocation leaves exactly one of
the succeeded and failed flags set, so the mutual-exclusion invariant holds in
the final persisted state of each finalize; it does not hold at every state
persisted mid-transition, where finishedProcessing is already true while both
outcome flags are still false. This theorem is the completed-finalize half. -/
theorem C4_finalize_mutual_exclusion (ext : DocExt) (is_error : Bool) (b : InputBlob)
    (st : WorldState)
    (h : (set_processing_status_and_move_completed_blobs ext is_error b st).2.2 = none) :
    ((set_processing_status_and_move_completed_blobs ext is_error b st).1).is_processed_success
      = !((set_processing_status_and_move_completed_blobs ext is_error b st).1).is_processed_failed := by
  unfold set_processing_status_and_move_completed_blobs at h ⊢
  rcases hip : b.in_progress_blob_path with _ | ipp
  · cases is_error <;> simp [hip] at h
  · rcases hm : ext.move_final_ok with _ | _
    · cases is_error <;> simp [hip, hm] at h
    · cases is_error <;> simp [hip, hm, addLifecycle]

/-- C4 witness: a concrete completed finalize on the error side sets the
failed flag and clears the succeeded flag. -/
theorem C4_finalize_mutual_exclusion_witness :
    ((set_processing_status_and_move_completed_blobs extOk true inProgressRec {}).1).is_processed_success
      = !((set_processing_status_and_move_completed_blobs extOk true inProgressRec {}).1).is_processed_failed :=
  C4_finalize_mutual_exclusion extOk true inProgressRec {} (by rfl)

/-- C4 counterexample: the chronological record-store saves of one successful
document show two persisted mid-transition states with finishedProcessing true
while both the succeeded and the failed flag are still false, violating the
claimed invariant for states persisted mid-transition. -/
theorem C4_counterexample_midtransition_persisted_states :
    ((handle_input_blob_process cfgProd [(docOkRec, extOk)] {}).1.saved.map
      (fun b => (b.is_processed_for_data, b.is_processed_success, b.is_processed_failed)))
      = [(false, false, false), (false, false, false), (false, false, false),
         (true, false, false), (true, false, false), (true, true, false)] := by
  rfl

/-- C1 (code bug): evaluation at the failing input. In a batch whose first
document succeeds, a second document whose analysis call raises a network
error is nevertheless finalized with succeeded=true and relocated to the
Successful folder, because the is_error variable is initialised once before
the loop and still holds false from the first document; the same failing
document alone (no earlier success) is correctly routed to Failed with
succeeded=false. -/
theorem C1_second_document_failure_lands_in_successful :
    ((match (handle_input_blob_process cfgProd [(docOkRec, extOk), (docNetRec, extNetFail)] {}).2 with
      | Except.ok l => l.map (fun b =>
          (b.is_processed_for_data, b.is_processed_success, b.is_processed_failed))
      | Except.error _ => []) = [(true, true, false), (true, true, false)])
    ∧ ((handle_input_blob_process cfgProd [(docOkRec, extOk), (docNetRec, extNetFail)] {}).1.store.blobs
      = ["test-company/Successful/1002-receipt.jpg", "test-company/Successful/1001-receipt.jpg"])
    ∧ ((match (handle_input_blob_process cfgProd [(docNetRec, extNetFail)] {}).2 with
      | Except.ok l => l.map (fun b =>
          (b.is_processed_for_data, b.is_processed_success, b.is_processed_failed))
      | Except.error _ => []) = [(true, false, true)]) := by
  refine ⟨?_, ?_, ?_⟩ <;> rfl

/-- C2 (amended): a failure raised inside the guarded per-document section
(claim, analysis, or the first finalize attempt) is caught and the batch
continues - when every fetched document resolves its type and its relocations
succeed, the batch returns one summary per document attempted whatever each
analysis outcome is; but a failure raised inside the per-document
error-handling path itself (for example a failed relocation to the Failed
folder) propagates and aborts the batch. This theorem is the isolation half. -/
theorem C2_batch_isolation_for_wellformed_docs (cfg : ConfigData)
    (docs : List (InputBlob × DocExt)) (st : WorldState)
    (hconn : exceptIsOk (get_blob_storage_connection_string cfg) = true)
    (hw : ∀ d ∈ docs.filter
        (fun r => r.1.is_validation_successful && !r.1.is_processing_for_data),
      ∃ dm, get_document_type_from_file_name cfg d.1.validation_successful_blob_path
          = Except.ok dm
        ∧ d.2.move_to_inprogress_ok = true ∧ d.2.move_final_ok = true) :
    ∃ l, (handle_input_blob_process cfg docs st).2 = Except.ok l
      ∧ l.length = (docs.filter
          (fun r => r.1.is_validation_successful && !r.1.is_processing_for_data)).length := by
  unfold handle_input_blob_process
  rcases hc : get_blob_storage_connection_string cfg with e | cs
  · rw [hc] at hconn
    simp [exceptIsOk] at hconn
  · simp only []
    obtain ⟨l, hl, hlen⟩ := processLoop_no_raise cfg (cfg.use_azure_form_recognizer.getD true)
      (docs.filter (fun r => r.1.is_validation_successful && !r.1.is_processing_for_data))
      true st [] hw
    exact ⟨l, hl, by simpa using hlen⟩

/-- C2 witness: a batch over one well-formed document, of which one contains a
failing analysis call, completes with one summary per document. -/
theorem C2_batch_isolation_witness :
    ∃ l, (handle_input_blob_process cfgProd [(docOkRec, extOk), (docNetRec, extNetFail)] {}).2
        = Except.ok l
      ∧ l.length = ([(docOkRec, extOk), (docNetRec, extNetFail)].filter
          (fun r => r.1.is_validation_successful && !r.1.is_processing_for_data)).length :=
  C2_batch_isolation_for_wellformed_docs cfgProd [(docOkRec, extOk), (docNetRec, extNetFail)] {}
    (by rfl)
    (by
      intro d hd
      rcases List.mem_filter.mp hd with ⟨hmem, -⟩
      rcases List.mem_cons.mp hmem with h1 | h2
      · subst h1
        exact ⟨("receipt", "model-A"), by rfl, rfl, rfl⟩
      · have h1 := List.mem_singleton.mp h2
        subst h1
        exact ⟨("receipt", "model-A"), by rfl, rfl, rfl⟩)

/-- C2 counterexample: a document whose analysis raises and whose relocation
to the Failed folder then also fails makes the exception escape the except
handler: the batch aborts with that exception, the second document is never
attempted (every persisted save belongs to the first document), and no list of
summaries is produced. -/
theorem C2_counterexample_handler_failure_aborts :
    ((handle_input_blob_process cfgProd [(docNetRec, extNetFailRelocFail), (docOkRec, extOk)] {}).2
      = Except.error PyExc.generic)
    ∧ ((handle_input_blob_process cfgProd [(docNetRec, extNetFailRelocFail), (docOkRec, extOk)] {}).1.saved.all
        (fun b => b.validation_successful_blob_path
          == "test-company/Validation-Successful/1002-receipt.jpg") = true) := by
  refine ⟨?_, ?_⟩ <;> rfl

/-- C3 (amended): when document-type resolution fails, the claim function
itself persists nothing, relocates nothing, and leaves claimedForProcessing
false; but the claim does not abort without mutation: the batch-level
exception handler then marks the record finishedProcessing=true, persists it
with the two lifecycle entries Processing and Processed, and raises an
AttributeError on the unset in-progress path, aborting the batch; the object
store is untouched. -/
theorem C3_resolution_failure_aborts_claim_but_handler_mutates (cfg : ConfigData)
    (ext : DocExt) (ue isErr0 : Bool) (p : String) (st : WorldState)
    (hres : get_document_type_from_file_name cfg p = Except.error PyExc.missingDocType) :
    (handle_one cfg ext ue isErr0 { validation_successful_blob_path := p } st).2.2.2
      = some PyExc.attributeError
    ∧ ((handle_one cfg ext ue isErr0 { validation_successful_blob_path := p } st).1).is_processing_for_data
      = false
    ∧ ((handle_one cfg ext ue isErr0 { validation_successful_blob_path := p } st).1).is_processed_for_data
      = true
    ∧ (((handle_one cfg ext ue isErr0 { validation_successful_blob_path := p } st).1).lifecycle_status_list.map
        (fun e => e.status))
      = [LifecycleStatusTypes.PROCESSING, LifecycleStatusTypes.PROCESSED]
    ∧ (handle_one cfg ext ue isErr0 { validation_successful_blob_path := p } st).2.1
      = saveRecord ((handle_one cfg ext ue isErr0 { validation_successful_blob_path := p } st).1) st
    ∧ ((handle_one cfg ext ue isErr0 { validation_successful_blob_path := p } st).2.1).store
      = st.store := by
  unfold handle_one set_blob_for_processing_and_update_mongodb exceptHandlerBody
    set_processing_status_and_move_completed_blobs addLifecycle saveRecord
  cases isErr0 <;> simp [hres]

/-- C3 witness: the concrete hyphen-less filename triggers exactly the amended
behaviour. -/
theorem C3_resolution_failure_witness :
    (handle_one cfgProd extOk true true
        { validation_successful_blob_path := "test-company/Validation-Successful/1001.jpg" } {}).2.2.2
      = some PyExc.attributeError
    ∧ ((handle_one cfgProd extOk true true
        { validation_successful_blob_path := "test-company/Validation-Successful/1001.jpg" } {}).1).is_processing_for_data
      = false
    ∧ ((handle_one cfgProd extOk true true
        { validation_successful_blob_path := "test-company/Validation-Successful/1001.jpg" } {}).1).is_processed_for_data
      = true
    ∧ (((handle_one cfgProd extOk true true
        { validation_successful_blob_path := "test-company/Validation-Successful/1001.jpg" } {}).1).lifecycle_status_list.map
        (fun e => e.status))
      = [LifecycleStatusTypes.PROCESSING, LifecycleStatusTypes.PROCESSED]
    ∧ (handle_one cfgProd extOk true true
        { validation_successful_blob_path := "test-company/Validation-Successful/1001.jpg" } {}).2.1
      = saveRecord ((handle_one cfgProd extOk true true
        { validation_successful_blob_path := "test-company/Validation-Successful/1001.jpg" } {}).1) {}
    ∧ ((handle_one cfgProd extOk true true
        { validation_successful_blob_path := "test-company/Validation-Successful/1001.jpg" } {}).2.1).store
      = WorldState.store {} :=
  C3_resolution_failure_aborts_claim_but_handler_mutates cfgProd extOk true true
    ("test-company/Validation-Successful/1001.jpg") {} (by rfl)

/-- C3 counterexample: running the batch on the hyphen-less document persists
a record with finishedProcessing=true and two lifecycle entries - contradicting
that no record field changes and no lifecycle entry is persisted - and then
aborts with an AttributeError. -/
theorem C3_counterexample_mutations_persisted_on_resolution_failure :
    ((handle_input_blob_process cfgProd [(noHyphenRec, extOk)] {}).2
      = Except.error PyExc.attributeError)
    ∧ ((handle_input_blob_process cfgProd [(noHyphenRec, extOk)] {}).1.saved.map
        (fun b => (b.is_processed_for_data, b.is_processing_for_data,
          b.lifecycle_status_list.length)))
      = [(true, false, 2)] := by
  refine ⟨?_, ?_⟩ <;> rfl

/-- C5 (amended): when the handler-level toggle allows analysis to run (the
option is absent, defaulting to true, or set true) while the analysis step
itself has the recognizer disabled (environment not prod, or the prod toggle
absent), the document follows the valid non-error branch: the placeholder
result payload is produced and written as the artifact, and the document is
finalized as a success; but when the toggle is explicitly false the handler
skips analysis entirely and routes the document to the Failed stage. This
theorem is the placeholder-success half. -/
theorem C5_disabled_analysis_placeholder_success (cfg : ConfigData) (ext : DocExt)
    (isErr0 : Bool) (b : InputBlob) (st : WorldState) (dm : String × String)
    (hfr : analyze_use_azure_form_recognizer cfg = false)
    (hres : get_document_type_from_file_name cfg b.validation_successful_blob_path
      = Except.ok dm)
    (hm1 : ext.move_to_inprogress_ok = true) (hm2 : ext.move_final_ok = true)
    (hnoc : (st.store.results.find? (fun pr =>
        pr.1 == result_json_path (pyReplaceS b.validation_successful_blob_path
          VALIDATION_SUCCESSFUL_SUBFOLDER INPROGRESS_SUBFOLDER))).isSome = false) :
    (handle_one cfg ext true isErr0 b st).2.2.2 = none
    ∧ (handle_one cfg ext true isErr0 b st).2.2.1 = false
    ∧ ((handle_one cfg ext true isErr0 b st).1).is_processed_success = true
    ∧ ((handle_one cfg ext true isErr0 b st).1).is_processed_failed = false
    ∧ (result_json_path (pyReplaceS b.validation_successful_blob_path
          VALIDATION_SUCCESSFUL_SUBFOLDER INPROGRESS_SUBFOLDER),
       result_payload (basenameS (pyReplaceS b.validation_successful_blob_path
          VALIDATION_SUCCESSFUL_SUBFOLDER INPROGRESS_SUBFOLDER))
         FORM_RECOGNIZER_DISABLED_RESULT)
      ∈ ((handle_one cfg ext true isErr0 b st).2.1).store.results := by
  unfold handle_one set_blob_for_processing_and_update_mongodb analyze_blob
    analyze_result_dict set_processing_status_and_move_completed_blobs
    exceptHandlerBody addLifecycle saveRecord moveBlobInStore
  simp [hfr, hres, hm1, hm2, hnoc]

/-- C5 witness: with the toggle absent and a prod environment the concrete
document is finalized as a success with the placeholder artifact. -/
theorem C5_disabled_analysis_witness :
    (handle_one cfgNoToggle extOk true true docOkRec {}).2.2.2 = none
    ∧ (handle_one cfgNoToggle extOk true true docOkRec {}).2.2.1 = false
    ∧ ((handle_one cfgNoToggle extOk true true docOkRec {}).1).is_processed_success = true
    ∧ ((handle_one cfgNoToggle extOk true true docOkRec {}).1).is_processed_failed = false
    ∧ (result_json_path (pyReplaceS docOkRec.validation_successful_blob_path
          VALIDATION_SUCCESSFUL_SUBFOLDER INPROGRESS_SUBFOLDER),
       result_payload (basenameS (pyReplaceS docOkRec.validation_successful_blob_path
          VALIDATION_SUCCESSFUL_SUBFOLDER INPROGRESS_SUBFOLDER))
         FORM_RECOGNIZER_DISABLED_RESULT)
      ∈ ((handle_one cfgNoToggle extOk true true docOkRec {}).2.1).store.results :=
  C5_disabled_analysis_placeholder_success cfgNoToggle extOk true docOkRec {}
    ("receipt", "model-A") (by rfl) (by rfl) rfl rfl (by rfl)

/-- C5 counterexample: with the toggle explicitly false the document is routed
to the Failed stage with failed=true, not finalized as a success. -/
theorem C5_counterexample_toggle_off_routes_to_failed :
    ((match (handle_input_blob_process cfgToggleOff [(docOkRec, extOk)] {}).2 with
      | Except.ok l => l.map (fun b => (b.is_processed_success, b.is_processed_failed))
      | Except.error _ => []) = [(false, true)])
    ∧ (handle_input_blob_process cfgToggleOff [(docOkRec, extOk)] {}).1.store.blobs
      = ["test-company/Failed/1001-receipt.jpg"] := by
  refine ⟨?_, ?_⟩ <;> rfl

/-- C8 (amended): the artifact upload runs with overwrite disabled, so an
existing artifact is never clobbered; but the conflict is caught and logged by
the bare except inside the analysis step rather than surfaced: analyze_blob
returns normally with the record (including its result metadata) and the
stores unchanged, so the conflict does not affect the document outcome. -/
theorem C8_conflict_swallowed_stores_unchanged (cfg : ConfigData) (ext : DocExt)
    (b : InputBlob) (st : WorldState) (ipp rd : String)
    (hip : b.in_progress_blob_path = some ipp)
    (hrd : analyze_result_dict cfg ext b = Except.ok rd)
    (hconf : (st.store.results.find? (fun pr => pr.1 == result_json_path ipp)).isSome
      = true) :
    analyze_blob cfg ext b st = (b, st, none) := by
  unfold analyze_blob
  rw [hrd, hip]
  simp [hconf]

/-- C8 witness: the concrete in-progress record against a result store already
holding its artifact path. -/
theorem C8_conflict_swallowed_witness :
    analyze_blob cfgNoToggle extOk inProgressRec conflictState
      = (inProgressRec, conflictState, none) :=
  C8_conflict_swallowed_stores_unchanged cfgNoToggle extOk inProgressRec conflictState
    ("test-company/Inprogress/1001-receipt.jpg") FORM_RECOGNIZER_DISABLED_RESULT
    rfl (by rfl) (by rfl)

/-- C8 counterexample: with the artifact already present, the document is
still finalized as a success (the write conflict is not surfaced to the caller
and does not affect the outcome), the pre-existing artifact survives
unchanged, and only the result metadata is left unset. -/
theorem C8_counterexample_conflict_not_surfaced :
    ((match (handle_input_blob_process cfgProd [(docOkRec, extOk)] conflictState).2 with
      | Except.ok l => l.map (fun b => (b.is_processed_success, b.json_output))
      | Except.error _ => []) = [(true, none)])
    ∧ (handle_input_blob_process cfgProd [(docOkRec, extOk)] conflictState).1.store.results
      = [("test-company/1001-receipt.json", "old-payload")] := by
  refine ⟨?_, ?_⟩ <;> rfl

/-- C9 (amended): the record-driven batch treats empty discovery as ordinary:
when the query filter selects no record, handle_input_blob_process returns
zero summaries with no exception, indistinguishable in kind from a nonempty
batch; only the deprecated object-store-driven variant raises a
folder-missing exception on an empty listing, and the exception class that
variant imports does not exist in the codebase. -/
theorem C9_empty_discovery_returns_empty_batch (cfg : ConfigData)
    (allRecords : List (InputBlob × DocExt)) (st : WorldState)
    (hconn : exceptIsOk (get_blob_storage_connection_string cfg) = true)
    (hempty : allRecords.filter
      (fun r => r.1.is_validation_successful && !r.1.is_processing_for_data) = []) :
    handle_input_blob_process cfg allRecords st = (st, Except.ok [])
    ∧ get_input_blobs_list_discovery [] = Except.error PyExc.folderMissing := by
  constructor
  · unfold handle_input_blob_process
    rcases hc : get_blob_storage_connection_string cfg with e | cs
    · rw [hc] at hconn
      simp [exceptIsOk] at hconn
    · simp [hempty, processLoop]
  · rfl

/-- C9 witness: a record store whose only record is already claimed yields an
empty batch without error. -/
theorem C9_empty_discovery_witness :
    handle_input_blob_process cfgProd [(claimedRec, extOk)] {} = ({}, Except.ok [])
    ∧ get_input_blobs_list_discovery [] = Except.error PyExc.folderMissing :=
  C9_empty_discovery_returns_empty_batch cfgProd [(claimedRec, extOk)] {} (by rfl) (by rfl)

/-- C9 counterexample: the live batch raises nothing on empty discovery - it
returns a normal empty summary list, so the caller cannot distinguish the
empty-discovery case from an empty-but-valid batch by an exception. -/
theorem C9_counterexample_no_exception_on_empty_discovery :
    (handle_input_blob_process cfgProd [(claimedRec, extOk)] {}).2
      = Except.ok ([] : List InputBlob) := by
  rfl

end Citadel
